import Mathlib

/-!
Shallow embedding of `src/source/bindings/js/src/sdk/Audio/AudioConfig.ts`
(the `AudioConfig` factory and the `AudioConfigImpl` wrapper around an
`IAudioSource`), together with a spec-modelled state machine for the
concrete `IAudioSource` implementations (`MicAudioSource`,
`FileAudioSource`, the stream implementations), whose code lives in
`src/common.browser` / `src/sdk/Audio` of the repository but is not
included under `src/` here.
-/

namespace SpeechSdk

/-! ## Error kinds (spec §7) -/

/-- Error kinds named by the specification (§7). The source throws a plain
`Error("Not Supported Type")` in the unsupported-input case of
`AudioConfig.fromStreamInput`; the spec calls that failure
`UnsupportedInputError`. -/
inductive AudioError where
  | UnsupportedInputError
  | InvalidStateError
  | ActivationError
  | DeactivationError
deriving DecidableEq, Repr

/-! ## Factory arguments and producers -/

/-- A runtime value passed to `AudioConfig.fromStreamInput`; the two flags
record the outcomes of the two `instanceof` tests the source performs
(`audioStream instanceof PullAudioInputStreamCallback` and
`audioStream instanceof AudioInputStream`). -/
structure StreamArg where
  isPullAudioInputStreamCallback : Bool
  isAudioInputStream : Bool
deriving DecidableEq, Repr

/-- A runtime value passed to `AudioConfig.fromWavFileInput`. The flag
records whether the value is a recognized file reference (the TypeScript
signature restricts it to `File`; the runtime check lives in the
`FileAudioSource` constructor, which is not under `src/`). -/
structure FileRef where
  isRecognizedFileReference : Bool
deriving DecidableEq, Repr

/-- The concrete producer variants the factory can wrap: the source
constructs `new MicAudioSource(new PcmRecorder())`,
`new FileAudioSource(file)`, `new PullAudioInputStreamImpl(callback)`, or
uses the push stream object itself. -/
inductive Producer where
  | micProducer
  | fileProducer (file : FileRef)
  | pullStreamProducer (arg : StreamArg)
  | pushStreamProducer (arg : StreamArg)
deriving DecidableEq, Repr

/-- True exactly on the pull-stream producer variant. -/
def Producer.isPullStreamProducer : Producer → Bool
  | .pullStreamProducer _ => true
  | _ => false

/-- True exactly on the push-stream producer variant. -/
def Producer.isPushStreamProducer : Producer → Bool
  | .pushStreamProducer _ => true
  | _ => false

/-- True exactly on the file-backed producer variant. -/
def Producer.isFileProducer : Producer → Bool
  | .fileProducer _ => true
  | _ => false

/-- The observable content of `new AudioConfigImpl(source)` as built by the
static factories: which producer object the wrapper was constructed
around. -/
structure AudioConfigBuilt where
  source : Producer
deriving DecidableEq, Repr

/-! ## The factories (src lines 22--53) -/

/-- Embeds `AudioConfig.fromDefaultMicrophoneInput`: always wraps a
microphone producer. -/
def AudioConfig.fromDefaultMicrophoneInput : AudioConfigBuilt :=
  ⟨Producer.micProducer⟩

/-- Modelled from the spec: the `FileAudioSource` constructor is code of
this repository not under `src/`; §6 states that creating a source from a
file "fails with `UnsupportedInputError` if fileReference is not a
recognized file reference". -/
def FileAudioSource.create (file : FileRef) : Except AudioError Producer :=
  if file.isRecognizedFileReference then
    Except.ok (Producer.fileProducer file)
  else
    Except.error AudioError.UnsupportedInputError

/-- Embeds `AudioConfig.fromWavFileInput`: the source body is
`return new AudioConfigImpl(new FileAudioSource(file));` — a failure thrown
by the `FileAudioSource` constructor propagates, otherwise the produced
source is wrapped. -/
def AudioConfig.fromWavFileInput (file : FileRef) : Except AudioError AudioConfigBuilt :=
  (FileAudioSource.create file).map (fun p => ⟨p⟩)

/-- Embeds `AudioConfig.fromStreamInput`: first `instanceof` test selects
the pull-callback wrapper, second selects the push stream itself, and any
other shape throws (`UnsupportedInputError` in the spec's naming). -/
def AudioConfig.fromStreamInput (audioStream : StreamArg) : Except AudioError AudioConfigBuilt :=
  if audioStream.isPullAudioInputStreamCallback then
    Except.ok ⟨Producer.pullStreamProducer audioStream⟩
  else if audioStream.isAudioInputStream then
    Except.ok ⟨Producer.pushStreamProducer audioStream⟩
  else
    Except.error AudioError.UnsupportedInputError

/-! ## The pure forwarding wrapper (src lines 66--101)

`AudioConfigImpl` holds one private field `source : IAudioSource` set in
the constructor; each method forwards. The result types
`Promise<boolean>`, `Promise<IAudioStreamNode>`, and
`EventSource<AudioSourceEvent>` are opaque to this file and appear as type
parameters. -/

/-- The capability record of an `IAudioSource` as consumed by
`AudioConfigImpl`: `β` stands for `Promise<boolean>`, `ν` for
`Promise<IAudioStreamNode>`, `ε` for `EventSource<AudioSourceEvent>`. -/
structure IAudioSource (β ν ε : Type) where
  Id : Unit → String
  TurnOn : Unit → β
  Attach : String → ν
  Detach : String → Unit
  TurnOff : Unit → β
  Events : ε

/-- Embeds the `AudioConfigImpl` object: its only field is the
`IAudioSource` assigned once in the constructor. -/
structure AudioConfigImpl (β ν ε : Type) where
  source : IAudioSource β ν ε

/-- Embeds `AudioConfigImpl.Id`: `return this.source.Id();`. -/
def AudioConfigImpl.Id (c : AudioConfigImpl β ν ε) : String :=
  c.source.Id ()

/-- Embeds `AudioConfigImpl.TurnOn`: `return this.source.TurnOn();`. -/
def AudioConfigImpl.TurnOn (c : AudioConfigImpl β ν ε) : β :=
  c.source.TurnOn ()

/-- Embeds `AudioConfigImpl.Attach`: `return this.source.Attach(audioNodeId);`. -/
def AudioConfigImpl.Attach (c : AudioConfigImpl β ν ε) (audioNodeId : String) : ν :=
  c.source.Attach audioNodeId

/-- Embeds `AudioConfigImpl.TurnOff`: `return this.source.TurnOff();`. -/
def AudioConfigImpl.TurnOff (c : AudioConfigImpl β ν ε) : β :=
  c.source.TurnOff ()

/-- Embeds the `AudioConfigImpl.Events` getter: `return this.source.Events;`. -/
def AudioConfigImpl.Events (c : AudioConfigImpl β ν ε) : ε :=
  c.source.Events

/-- Embeds `AudioConfigImpl.close`: the body `this.source.TurnOff();`
evaluates the wrapped source's `TurnOff()` and discards the returned
`Promise<boolean>`; the method's return type is `void`. -/
def AudioConfigImpl.close (c : AudioConfigImpl β ν ε) : Unit :=
  let _ := c.source.TurnOff ()
  ()

/-- Embeds `AudioConfigImpl.Detach` exactly as written in the source:
`public Detach(audioNodeId: string): void { return this.Detach(audioNodeId); }`
— the body is a single self-call that never consults `this.source`. The
recursion is indexed by fuel: `some ()` would be returned only if some
unfolding completed without a further self-call; `none` means the given
fuel was exhausted without the call ever returning. -/
def AudioConfigImpl.detachFuel (c : AudioConfigImpl β ν ε) (audioNodeId : String) :
    Nat → Option Unit
  | 0 => none
  | fuel + 1 => c.detachFuel audioNodeId fuel

/-! ## Spec-modelled source state machine

The concrete `IAudioSource` implementations (`MicAudioSource`,
`FileAudioSource`, `PullAudioInputStreamImpl`, `PushAudioInputStreamImpl`)
are code of this repository not included under `src/`; their lifecycle is
modelled from the spec (§3, §4.1). Asynchronous transitions are modelled
as atomic, so the in-flight states `Starting`/`Stopping` are passed
through rather than rested in. -/

/-- Modelled from the spec: `SourceState` (§3); `Starting` and `Stopping`
are transient in-flight states of the asynchronous code and are never the
resting state of the synchronous model. -/
inductive SourceState where
  | Idle
  | Starting
  | Running
  | Stopping
  | Stopped
  | Faulted
deriving DecidableEq, Repr

/-- Modelled from the spec: the observable state of one concrete
`IAudioSource` — its construction-time `SourceId`, its `SourceState`, the
attachment registry of NodeIds, whether the producer's start primitive
will succeed, and counters for producer start/stop invocations and for
transitions into `Stopped`. -/
structure SourceModel where
  sourceId : String
  state : SourceState
  registry : List String
  producerStartOk : Bool
  startCalls : Nat
  stopCalls : Nat
  stoppedTransitions : Nat
deriving DecidableEq, Repr

/-- Modelled from the spec: `Id() → SourceId` "pure accessor, always
available regardless of state", returning the identifier "assigned at
AudioSource construction; stable for the source's lifetime" (§3, §4.1). -/
def SourceModel.IdModel (s : SourceModel) : String :=
  s.sourceId

/-- Modelled from the spec: `TurnOn()` (§4.1) — from `Idle` it runs the
first activation path (invoke producer start; `Running` on success,
`Faulted` with `ActivationError` on failure) without registering a node;
on an already-`Running` source it is a success no-op; in the terminal
states it fails with `InvalidStateError` ("close is terminal and must not
be reversed", §5). -/
def SourceModel.turnOnModel (s : SourceModel) : Except AudioError Unit × SourceModel :=
  match s.state with
  | .Idle =>
      if s.producerStartOk then
        (Except.ok (), { s with state := .Running, startCalls := s.startCalls + 1 })
      else
        (Except.error AudioError.ActivationError,
          { s with state := .Faulted, startCalls := s.startCalls + 1 })
  | .Running => (Except.ok (), s)
  | _ => (Except.error AudioError.InvalidStateError, s)

/-- Modelled from the spec: `Attach(nodeId)` (§4.1) — from `Idle` activate
the producer and register the node; from `Running` register without
re-starting; from `Stopping`/`Stopped`/`Faulted` fail with
`InvalidStateError`. -/
def SourceModel.attachModel (s : SourceModel) (nodeId : String) :
    Except AudioError Unit × SourceModel :=
  match s.state with
  | .Idle =>
      if s.producerStartOk then
        (Except.ok (),
          { s with state := .Running, startCalls := s.startCalls + 1, registry := [nodeId] })
      else
        (Except.error AudioError.ActivationError,
          { s with state := .Faulted, startCalls := s.startCalls + 1 })
  | .Running =>
      (Except.ok (),
        { s with registry := if nodeId ∈ s.registry then s.registry else nodeId :: s.registry })
  | _ => (Except.error AudioError.InvalidStateError, s)

/-- Modelled from the spec: `Detach(nodeId)` (§4.1) — "removes nodeId from
the registry if present. If the registry becomes empty, transition to
`Stopping`, invoke Producer stop, then `Stopped`"; detach of an absent
NodeId is a no-op. This is the primitive the wrapper's `Detach` should
forward to but, per the source defect, never reaches. -/
def SourceModel.detachModel (s : SourceModel) (nodeId : String) : SourceModel :=
  if nodeId ∈ s.registry then
    let remaining := s.registry.filter (fun x => x ≠ nodeId)
    if remaining = [] ∧ s.state = .Running then
      { s with state := .Stopped, registry := [],
               stopCalls := s.stopCalls + 1,
               stoppedTransitions := s.stoppedTransitions + 1 }
    else
      { s with registry := remaining }
  else
    s

/-- Modelled from the spec: `TurnOff()` (§4.1) — "forces deactivation
regardless of current attachment count, clears the registry, and
transitions to `Stopped`"; on an already-terminal source it is a pure
no-op with "zero, if already stopped" stop invocations (§8). -/
def SourceModel.turnOffModel (s : SourceModel) : SourceModel :=
  match s.state with
  | .Stopped => s
  | .Faulted => s
  | _ =>
      { s with state := .Stopped, registry := [],
               stopCalls := s.stopCalls + 1,
               stoppedTransitions := s.stoppedTransitions + 1 }

/-- True on the terminal states, in which the spec admits no further
activation ("Once `Faulted` … all such calls immediately fail", §7;
"close is terminal", §5). -/
def SourceState.isTerminal : SourceState → Bool
  | .Stopped => true
  | .Faulted => true
  | _ => false

/-! ## The wrapper over the modelled source

`AudioConfigImpl` forwards each call to its wrapped source exactly as the
source file writes it; the wrapped producer object itself is fixed by the
constructor. -/

/-- One `AudioConfigImpl` instance over the modelled source: the producer
object assigned by the constructor and the wrapped source's observable
state. -/
structure AudioConfigState where
  producer : Producer
  model : SourceModel
deriving DecidableEq, Repr

/-- The operations callable on an `AudioConfigImpl` handle. -/
inductive ConfigOp where
  | close
  | turnOn
  | turnOff
  | attach (nodeId : String)
  | detach (nodeId : String)
  | getId
  | getEvents
deriving DecidableEq, Repr

/-- State effect of one wrapper call, forwarding exactly as the source
file does: `close` and `TurnOff` run the source's `TurnOff`; `TurnOn` and
`Attach` run the like-named source operations; `Id` and the `Events`
getter read without mutating; `Detach` — per the source defect
`return this.Detach(audioNodeId);` — only ever re-enters itself, so no
assignment to any state is ever executed (see
`AudioConfigImpl.detachFuel`). -/
def AudioConfigState.applyOp (c : AudioConfigState) : ConfigOp → AudioConfigState
  | .close => { c with model := c.model.turnOffModel }
  | .turnOn => { c with model := (c.model.turnOnModel).2 }
  | .turnOff => { c with model := c.model.turnOffModel }
  | .attach nodeId => { c with model := (c.model.attachModel nodeId).2 }
  | .detach _ => c
  | .getId => c
  | .getEvents => c

/-- Runs a sequence of wrapper calls left to right. -/
def AudioConfigState.run (c : AudioConfigState) : List ConfigOp → AudioConfigState
  | [] => c
  | op :: ops => (c.applyOp op).run ops

/-- The value returned by `Id()` on the wrapper: forwarded to the wrapped
source's `Id()`. -/
def AudioConfigState.IdResult (c : AudioConfigState) : String :=
  c.model.IdModel

/-! ## Helper lemmas -/

/-- `TurnOff` always lands in (or stays in) a terminal state. -/
theorem turnOffModel_isTerminal (s : SourceModel) :
    (s.turnOffModel).state.isTerminal = true := by
  cases h : s.state <;> simp [SourceModel.turnOffModel, h, SourceState.isTerminal]

/-- In a terminal state, every wrapper call leaves the configuration
unchanged. -/
theorem applyOp_of_isTerminal (c : AudioConfigState) (op : ConfigOp)
    (h : c.model.state.isTerminal = true) : c.applyOp op = c := by
  have hstate : c.model.state = .Stopped ∨ c.model.state = .Faulted := by
    cases hs : c.model.state <;> simp [hs, SourceState.isTerminal] at h ⊢
  cases op <;>
    rcases hstate with hs | hs <;>
    simp [AudioConfigState.applyOp, SourceModel.turnOffModel,
      SourceModel.turnOnModel, SourceModel.attachModel, hs]

/-- In a terminal state, a whole sequence of wrapper calls leaves the
configuration unchanged. -/
theorem run_of_isTerminal (c : AudioConfigState) (ops : List ConfigOp)
    (h : c.model.state.isTerminal = true) : c.run ops = c := by
  induction ops with
  | nil => rfl
  | cons op ops ih =>
      simp [AudioConfigState.run, applyOp_of_isTerminal c op h, ih]

/-- In a terminal state, `Attach` fails with `InvalidStateError` and
leaves the source unchanged. -/
theorem attachModel_of_isTerminal (s : SourceModel) (nodeId : String)
    (h : s.state.isTerminal = true) :
    s.attachModel nodeId = (Except.error AudioError.InvalidStateError, s) := by
  have hstate : s.state = .Stopped ∨ s.state = .Faulted := by
    cases hs : s.state <;> simp [hs, SourceState.isTerminal] at h ⊢
  rcases hstate with hs | hs <;> simp [SourceModel.attachModel, hs]

/-- No wrapper call changes the wrapped producer object. -/
theorem applyOp_producer (c : AudioConfigState) (op : ConfigOp) :
    (c.applyOp op).producer = c.producer := by
  cases op <;> rfl

/-- No wrapper call changes the construction-time `SourceId`. -/
theorem applyOp_sourceId (c : AudioConfigState) (op : ConfigOp) :
    (c.applyOp op).model.sourceId = c.model.sourceId := by
  cases op with
  | close => simp [AudioConfigState.applyOp]; cases h : c.model.state <;>
      simp [SourceModel.turnOffModel, h]
  | turnOff => simp [AudioConfigState.applyOp]; cases h : c.model.state <;>
      simp [SourceModel.turnOffModel, h]
  | turnOn =>
      simp only [AudioConfigState.applyOp]
      cases h : c.model.state <;> simp [SourceModel.turnOnModel, h]
      split <;> rfl
  | attach nodeId =>
      simp only [AudioConfigState.applyOp]
      cases h : c.model.state <;> simp [SourceModel.attachModel, h]
      split <;> rfl
  | detach nodeId => rfl
  | getId => rfl
  | getEvents => rfl

/-! ## Claim theorems -/

/-- C1: the claim states that `Detach(audioNodeId)` terminates and forwards
to the wrapped source's detach primitive. The source instead defines
`Detach` as `return this.Detach(audioNodeId);`, a pure self-call: for
every handle, node id and fuel bound, the call never completes (and in
particular never reaches `source.Detach`). This refutes the claim on the
code and exhibits the self-referential delegation defect the spec's §9
flags. -/
theorem detach_self_recursion_never_completes {β ν ε : Type}
    (c : AudioConfigImpl β ν ε) (audioNodeId : String) (fuel : Nat) :
    c.detachFuel audioNodeId fuel = none := by
  induction fuel with
  | zero => rfl
  | succ n ih => simpa [AudioConfigImpl.detachFuel] using ih

/-- C2: `fromStreamInput` constructs exactly one of the two stream
producer variants — the pull-stream producer when the argument is a
pull-style callback object, the push-stream producer when it is a
push-style stream object (and not a pull callback) — and for an argument
matching neither shape it fails with `UnsupportedInputError`, constructing
no producer and no audio source. -/
theorem fromStreamInput_dispatch_contract (a : StreamArg) :
    (a.isPullAudioInputStreamCallback = true →
        AudioConfig.fromStreamInput a = Except.ok ⟨Producer.pullStreamProducer a⟩)
  ∧ (a.isPullAudioInputStreamCallback = false → a.isAudioInputStream = true →
        AudioConfig.fromStreamInput a = Except.ok ⟨Producer.pushStreamProducer a⟩)
  ∧ (a.isPullAudioInputStreamCallback = false → a.isAudioInputStream = false →
        AudioConfig.fromStreamInput a = Except.error AudioError.UnsupportedInputError)
  ∧ (∀ cfg, AudioConfig.fromStreamInput a = Except.ok cfg →
        ((cfg.source.isPullStreamProducer = true ∧ cfg.source.isPushStreamProducer = false)
          ∨ (cfg.source.isPullStreamProducer = false ∧ cfg.source.isPushStreamProducer = true))) := by
  obtain ⟨pull, push⟩ := a
  cases pull <;> cases push <;>
    simp [AudioConfig.fromStreamInput, Producer.isPullStreamProducer,
      Producer.isPushStreamProducer]

/-- C2 witness: the all-false shape is rejected with
`UnsupportedInputError`. -/
theorem fromStreamInput_dispatch_contract_witness :
    AudioConfig.fromStreamInput ⟨false, false⟩
      = Except.error AudioError.UnsupportedInputError :=
  (fromStreamInput_dispatch_contract ⟨false, false⟩).2.2.1 rfl rfl

/-- C3: creating a configuration from a file fails with
`UnsupportedInputError` when the argument is not a recognized file
reference, and otherwise wraps a file-backed producer. The validation
lives in the `FileAudioSource` constructor, modelled from the spec. -/
theorem fromWavFileInput_validates (file : FileRef) :
    (file.isRecognizedFileReference = false →
        AudioConfig.fromWavFileInput file = Except.error AudioError.UnsupportedInputError)
  ∧ (file.isRecognizedFileReference = true →
        ∃ cfg, AudioConfig.fromWavFileInput file = Except.ok cfg
          ∧ cfg.source.isFileProducer = true) := by
  obtain ⟨r⟩ := file
  cases r <;>
    simp [AudioConfig.fromWavFileInput, FileAudioSource.create,
      Producer.isFileProducer, Except.map]

/-- C3 witness: an unrecognized file reference is rejected with
`UnsupportedInputError`. -/
theorem fromWavFileInput_validates_witness :
    AudioConfig.fromWavFileInput ⟨false⟩
      = Except.error AudioError.UnsupportedInputError :=
  (fromWavFileInput_validates ⟨false⟩).1 rfl

/-- C4: `close()` forces the wrapped source's `TurnOff` (exactly the
forwarding the source file writes), and afterwards the source is
permanently unusable: after any further sequence of wrapper calls, an
`Attach` call fails with `InvalidStateError`. -/
theorem close_makes_attach_invalid (c : AudioConfigState) (ops : List ConfigOp)
    (nodeId : String) :
    (c.applyOp .close).model = c.model.turnOffModel
  ∧ (((c.applyOp .close).run ops).model.attachModel nodeId).1
      = Except.error AudioError.InvalidStateError := by
  refine ⟨rfl, ?_⟩
  have hterm : (c.applyOp .close).model.state.isTerminal = true :=
    turnOffModel_isTerminal c.model
  rw [run_of_isTerminal _ ops hterm, attachModel_of_isTerminal _ nodeId hterm]

/-- C5: `close()` is idempotent — the second call is a pure no-op on the
state, and across two successive calls at most one producer stop
invocation and at most one transition into `Stopped` occur. -/
theorem close_idempotent_single_stop (c : AudioConfigState) :
    (c.applyOp .close).applyOp .close = c.applyOp .close
  ∧ ((c.applyOp .close).applyOp .close).model.stopCalls ≤ c.model.stopCalls + 1
  ∧ ((c.applyOp .close).applyOp .close).model.stoppedTransitions
      ≤ c.model.stoppedTransitions + 1 := by
  have h1 : (c.applyOp .close).applyOp .close = c.applyOp .close :=
    applyOp_of_isTerminal _ _ (turnOffModel_isTerminal c.model)
  refine ⟨h1, ?_, ?_⟩
  · rw [h1]
    show (c.model.turnOffModel).stopCalls ≤ c.model.stopCalls + 1
    cases h : c.model.state <;> simp [SourceModel.turnOffModel, h]
  · rw [h1]
    show (c.model.turnOffModel).stoppedTransitions ≤ c.model.stoppedTransitions + 1
    cases h : c.model.state <;> simp [SourceModel.turnOffModel, h]

/-- C6: `AudioConfigImpl` is a pure forwarding wrapper: `Id`, `TurnOn`,
`Attach`, `TurnOff` and the `Events` getter each return exactly the result
of the like-named operation of the wrapped `IAudioSource`, with no
additional state or transformation. -/
theorem audioConfigImpl_forwards {β ν ε : Type} (src : IAudioSource β ν ε)
    (audioNodeId : String) :
    (AudioConfigImpl.mk src).Id = src.Id ()
  ∧ (AudioConfigImpl.mk src).TurnOn = src.TurnOn ()
  ∧ (AudioConfigImpl.mk src).Attach audioNodeId = src.Attach audioNodeId
  ∧ (AudioConfigImpl.mk src).TurnOff = src.TurnOff ()
  ∧ (AudioConfigImpl.mk src).Events = src.Events :=
  ⟨rfl, rfl, rfl, rfl, rfl⟩

/-- C7: the wrapped producer is fixed at construction: no sequence of
wrapper calls (close, TurnOn, TurnOff, Attach, Detach, Id, Events) ever
re-binds it. -/
theorem producer_fixed_at_construction (c : AudioConfigState) (ops : List ConfigOp) :
    (c.run ops).producer = c.producer := by
  induction ops generalizing c with
  | nil => rfl
  | cons op ops ih => simp [AudioConfigState.run, ih, applyOp_producer]

/-- C8: `Id()` is a pure accessor: calling it changes nothing, and after
any sequence of prior wrapper calls (close included) it still returns the
`SourceId` assigned at construction. -/
theorem id_pure_stable_accessor (c : AudioConfigState) (ops : List ConfigOp) :
    c.applyOp .getId = c ∧ (c.run ops).IdResult = c.IdResult := by
  refine ⟨rfl, ?_⟩
  induction ops generalizing c with
  | nil => rfl
  | cons op ops ih =>
      simp only [AudioConfigState.run]
      rw [ih]
      simpa [AudioConfigState.IdResult, SourceModel.IdModel] using applyOp_sourceId c op

/-- C9: `close()` returns `void` and discards the `Promise` returned by
the wrapped source's `TurnOff`: its return value is the unit value for
every handle, so two handles whose `TurnOff` outcomes differ are
indistinguishable through `close`'s return value and no `DeactivationError`
is synchronously observable there. -/
theorem close_discards_turnOff_outcome {β ν ε : Type} (sa sb : IAudioSource β ν ε) :
    (AudioConfigImpl.mk sa).close = ()
  ∧ (AudioConfigImpl.mk sa).close = (AudioConfigImpl.mk sb).close :=
  ⟨rfl, rfl⟩

/-- C10: the dispatch of `fromStreamInput` gives the pull-callback test
priority: any argument satisfying the pull-callback shape — also one
satisfying the push-stream shape at the same time — yields the pull-stream
producer, never the push-stream one. -/
theorem fromStreamInput_pull_priority (a : StreamArg)
    (h : a.isPullAudioInputStreamCallback = true) :
    AudioConfig.fromStreamInput a = Except.ok ⟨Producer.pullStreamProducer a⟩ := by
  simp [AudioConfig.fromStreamInput, h]

/-- C10 witness: an argument satisfying both shapes yields the pull-stream
producer. -/
theorem fromStreamInput_pull_priority_witness :
    (StreamArg.mk true true).isPullAudioInputStreamCallback = true
  ∧ AudioConfig.fromStreamInput ⟨true, true⟩
      = Except.ok ⟨Producer.pullStreamProducer ⟨true, true⟩⟩ :=
  ⟨rfl, fromStreamInput_pull_priority ⟨true, true⟩ rfl⟩

end SpeechSdk
